import Mathlib

/-!
Shallow embedding of the AstrBot plugin `friend_invite_manager`
(repository `bot_group_friends`, file `main.py`).

Modelling conventions:
* Python `str` is Lean `String`; Python string operations (`strip`,
  `startswith`, substring `in`, `split(":", 1)`, `splitlines`,
  `split(maxsplit=1)`) are re-implemented on `List Char` below so that every
  definition is executable and kernel-reducible.
* The two mutable dictionaries `pending_friend_requests` and
  `pending_group_invites` are association lists with unique keys
  (insert = cons after erasing the key, matching dict overwrite semantics).
* Outbound effects are reified: actuator calls (`bot.call_action`) become
  values of type `BotAction` collected in a list, and `event.send` becomes a
  list of sent message strings.  An `Env` record carries the configuration
  (`admin_qq_list`), whether the platform has `call_action`
  (`hasattr(bot, "call_action")`), and the outcome of each actuator call
  (`Except.ok` for success, `Except.error e` for a raised exception with
  description `e`).
* Each handler is a pure function from the pre-state and the message data to
  (post-state, actuator calls, sent messages).
-/

set_option autoImplicit false

/-- `leadsWith p s = true` iff char list `p` is an initial segment of `s`
(Python `s.startswith(p)` at the list level). -/
def leadsWith : List Char → List Char → Bool
  | [], _ => true
  | _ :: _, [] => false
  | p :: ps, c :: cs => p == c && leadsWith ps cs

/-- `containsSub s pat = true` iff `pat` occurs contiguously in `s`
(Python `pat in s` at the list level). -/
def containsSub : List Char → List Char → Bool
  | [], pat => pat.isEmpty
  | c :: cs, pat => leadsWith pat (c :: cs) || containsSub cs pat

/-- Python substring test `pat in s`. -/
def strContains (s pat : String) : Bool :=
  containsSub s.data pat.data

/-- Python `s.startswith(pre)`. -/
def pyStartsWith (s pre : String) : Bool :=
  leadsWith pre.data s.data

/-- Python `s.strip()`: remove leading and trailing whitespace. -/
def pyStrip (s : String) : String :=
  String.mk (((s.data.dropWhile Char.isWhitespace).reverse.dropWhile
    Char.isWhitespace).reverse)

/-- The text after the first `:` of `s` — Python `s.split(":", 1)[1]`
(for the lines scanned by the plugin a colon is always present because the
matched label itself ends in one). -/
def afterFirstColon (s : String) : String :=
  String.mk ((s.data.dropWhile (fun c => c != ':')).drop 1)

/-- Helper for `splitLines`: accumulate the current line (reversed). -/
def splitLinesAux : List Char → List Char → List String
  | [], acc => [String.mk acc.reverse]
  | c :: cs, acc =>
    if c = '\n' then String.mk acc.reverse :: splitLinesAux cs []
    else splitLinesAux cs (c :: acc)

/-- Python `s.splitlines()` for `\n`-separated text (a trailing newline
yields a final empty line, which never matches any label and is thus
behaviourally identical for the scans below). -/
def splitLines (s : String) : List String :=
  splitLinesAux s.data []

/-- Python `s.split(maxsplit=1)`: leading whitespace dropped, first
whitespace-delimited token, then the remainder after the following
whitespace run. -/
def pySplitMax1 (s : String) : List String :=
  let cs := s.data.dropWhile Char.isWhitespace
  if cs.isEmpty then []
  else
    let tok := cs.takeWhile (fun c => !c.isWhitespace)
    let rest := (cs.dropWhile (fun c => !c.isWhitespace)).dropWhile Char.isWhitespace
    if rest.isEmpty then [String.mk tok] else [String.mk tok, String.mk rest]

/-- Dictionary lookup `d.get(k)` on an association list. -/
def regFind {α : Type} : List (String × α) → String → Option α
  | [], _ => none
  | p :: rest, k => if p.1 == k then some p.2 else regFind rest k

/-- Dictionary removal `d.pop(k, None)`: drop every binding of `k`. -/
def regErase {α : Type} (r : List (String × α)) (k : String) : List (String × α) :=
  r.filter (fun p => p.1 != k)

/-- Dictionary assignment `d[k] = v` (overwrites any existing binding). -/
def regInsert {α : Type} (r : List (String × α)) (k : String) (v : α) :
    List (String × α) :=
  (k, v) :: regErase r k

/-- Number of bindings of key `k` in the association list. -/
def countKey {α : Type} (r : List (String × α)) (k : String) : Nat :=
  (r.filter (fun p => p.1 == k)).length

/-- Entry of `pending_friend_requests` (the `info` dict built in
`_handle_friend_request`). -/
structure FriendInfo where
  request_id : String
  user_id : String
  comment : String
  flag : String
deriving DecidableEq, Repr

/-- Entry of `pending_group_invites` (the `info` dict built in
`_handle_group_invite`). -/
structure GroupInfo where
  request_id : String
  group_id : String
  user_id : String
  flag : String
deriving DecidableEq, Repr

/-- The plugin's mutable state: the two pending registries. -/
structure PluginState where
  pending_friend_requests : List (String × FriendInfo)
  pending_group_invites : List (String × GroupInfo)
deriving DecidableEq, Repr

/-- One actuator call issued through `bot.call_action`, with its arguments. -/
inductive BotAction where
  | set_friend_add_request (flag : String) (approve : Bool)
  | set_group_add_request (flag : String) (sub_type : String) (approve : Bool)
  | delete_friend (user_id : String)
  | set_friend_blacklist (user_id : String) (enable : Bool)
deriving DecidableEq, Repr

/-- Environment: configuration plus the behaviour of the external platform.
`callResult a = Except.error e` models `bot.call_action` raising an
exception rendered as `e`. -/
structure Env where
  admin_qq_list : List String
  hasCallAction : Bool
  callResult : BotAction → Except String Unit

/-- `request_id` computed by `_handle_friend_request`:
`f"{user_id}_{flag}"`. -/
def friendRequestId (user_id flag : String) : String :=
  user_id ++ "_" ++ flag

/-- `request_id` computed by `_handle_group_invite`:
`f"{group_id}_{user_id}_{flag}"`. -/
def groupRequestId (group_id user_id flag : String) : String :=
  group_id ++ "_" ++ user_id ++ "_" ++ flag

/-- The admin notification text built in `_handle_friend_request`. -/
def friendNotifText (user_id comment request_id : String) : String :=
  "【好友申请】\n申请人QQ: " ++ user_id ++ "\n验证信息: " ++ comment ++
    "\n申请ID: " ++ request_id ++ "\n请【引用】本条消息并回复：\n  同意  或  拒绝"

/-- The admin notification text built in `_handle_group_invite`. -/
def groupNotifText (group_id user_id request_id : String) : String :=
  "【群邀请】\n群号: " ++ group_id ++ "\n邀请人QQ: " ++ user_id ++
    "\n邀请ID: " ++ request_id ++ "\n请【引用】本条消息并回复：\n  同意  或  拒绝"

/-- `_handle_friend_request`: record the pending request and produce the
notification text sent to every admin. -/
def _handle_friend_request (st : PluginState) (user_id comment flag : String) :
    PluginState × String :=
  let request_id := friendRequestId user_id flag
  let info : FriendInfo := ⟨request_id, user_id, comment, flag⟩
  ({ st with pending_friend_requests :=
      regInsert st.pending_friend_requests request_id info },
   friendNotifText user_id comment request_id)

/-- `_handle_group_invite`: record the pending invite and produce the
notification text sent to every admin. -/
def _handle_group_invite (st : PluginState) (group_id user_id flag : String) :
    PluginState × String :=
  let request_id := groupRequestId group_id user_id flag
  let info : GroupInfo := ⟨request_id, group_id, user_id, flag⟩
  ({ st with pending_group_invites :=
      regInsert st.pending_group_invites request_id info },
   groupNotifText group_id user_id request_id)

/-- `_reply_friend_request`: approve/reject a pending friend request. -/
def _reply_friend_request (env : Env) (st : PluginState) (request_id : String)
    (approve : Bool) : PluginState × List BotAction × List String :=
  match regFind st.pending_friend_requests request_id with
  | none => (st, [], ["未找到对应的好友申请，可能已过期或已处理。"])
  | some info =>
    if !env.hasCallAction then
      (st, [], ["当前平台不支持 call_action，无法处理好友申请。"])
    else
      match env.callResult (BotAction.set_friend_add_request info.flag approve) with
      | Except.ok _ =>
        ({ st with pending_friend_requests :=
            regErase st.pending_friend_requests request_id },
         [BotAction.set_friend_add_request info.flag approve],
         [if approve then "已同意好友申请：" ++ info.user_id
          else "已拒绝好友申请：" ++ info.user_id])
      | Except.error e =>
        (st, [BotAction.set_friend_add_request info.flag approve],
         ["处理好友申请失败: " ++ e])

/-- `_reply_group_invite`: approve/reject a pending group invite. -/
def _reply_group_invite (env : Env) (st : PluginState) (request_id : String)
    (approve : Bool) : PluginState × List BotAction × List String :=
  match regFind st.pending_group_invites request_id with
  | none => (st, [], ["未找到对应的群邀请，可能已过期或已处理。"])
  | some info =>
    if !env.hasCallAction then
      (st, [], ["当前平台不支持 call_action，无法处理群邀请。"])
    else
      match env.callResult (BotAction.set_group_add_request info.flag "add" approve) with
      | Except.ok _ =>
        ({ st with pending_group_invites :=
            regErase st.pending_group_invites request_id },
         [BotAction.set_group_add_request info.flag "add" approve],
         [if approve then "已同意群邀请：" ++ info.group_id ++ "，bot 将加入该群。"
          else "已拒绝群邀请：" ++ info.group_id ++ "，bot 不会加入该群。"])
      | Except.error e =>
        (st, [BotAction.set_group_add_request info.flag "add" approve],
         ["处理群邀请失败: " ++ e])

/-- `_delete_friend`: issue `delete_friend` for `user_id`.  The registries
are never touched, so only the calls and messages are returned. -/
def _delete_friend (env : Env) (user_id : String) : List BotAction × List String :=
  if !env.hasCallAction then
    ([], ["当前平台不支持 call_action，无法删除好友。"])
  else
    match env.callResult (BotAction.delete_friend user_id) with
    | Except.ok _ => ([BotAction.delete_friend user_id], ["已删除好友：" ++ user_id])
    | Except.error e => ([BotAction.delete_friend user_id], ["删除好友失败: " ++ e])

/-- `_ban_user`: issue `set_friend_blacklist` with `enable=True`. -/
def _ban_user (env : Env) (user_id : String) : List BotAction × List String :=
  if !env.hasCallAction then
    ([], ["当前平台不支持 call_action，无法拉黑用户。"])
  else
    match env.callResult (BotAction.set_friend_blacklist user_id true) with
    | Except.ok _ =>
      ([BotAction.set_friend_blacklist user_id true], ["已拉黑用户：" ++ user_id])
    | Except.error e =>
      ([BotAction.set_friend_blacklist user_id true], ["拉黑用户失败: " ++ e])

/-- Correlation-id extraction: scan the lines for the first one starting
with `label` and return the text after its first colon, stripped (the
`for line in lines: if line.startswith(label): ...; break` loop). -/
def extractFromLines (label : String) : List String → Option String
  | [] => none
  | l :: rest =>
    if pyStartsWith l label then some (pyStrip (afterFirstColon l))
    else extractFromLines label rest

/-- Correlation-id extraction from the quoted text. -/
def extractRequestId (label : String) (quoted : String) : Option String :=
  extractFromLines label (splitLines quoted)

/-- The friend-request branch of `on_all_message` (lines 271-287):
`some` result means the branch dispatched (and `on_all_message` returns),
`none` means control falls through. -/
def friendQuoteDispatch (env : Env) (st : PluginState) (msg quoted : String) :
    Option (PluginState × List BotAction × List String) :=
  if strContains quoted "【好友申请】" then
    match extractRequestId "申请ID:" quoted with
    | none => none
    | some request_id =>
      if (request_id != "") && (regFind st.pending_friend_requests request_id).isSome then
        if strContains msg "同意" then
          some (_reply_friend_request env st request_id true)
        else if strContains msg "拒绝" then
          some (_reply_friend_request env st request_id false)
        else none
      else none
  else none

/-- The group-invite branch of `on_all_message` (lines 289-304). -/
def groupQuoteDispatch (env : Env) (st : PluginState) (msg quoted : String) :
    Option (PluginState × List BotAction × List String) :=
  if strContains quoted "【群邀请】" then
    match extractRequestId "邀请ID:" quoted with
    | none => none
    | some request_id =>
      if (request_id != "") && (regFind st.pending_group_invites request_id).isSome then
        if strContains msg "同意" then
          some (_reply_group_invite env st request_id true)
        else if strContains msg "拒绝" then
          some (_reply_group_invite env st request_id false)
        else none
      else none
  else none

/-- The `拉黑` command branch of `on_all_message` (lines 315-321). -/
def commandBan (env : Env) (msg : String) : List BotAction × List String :=
  if pyStartsWith msg "拉黑 " then
    match pySplitMax1 msg with
    | [_, arg] => _ban_user env (pyStrip arg)
    | _ => ([], [])
  else ([], [])

/-- The direct-command part of `on_all_message` (lines 306-321): `删除好友`
first, then `拉黑`; a `删除好友`-prefixed message that does not split into
exactly two parts falls through to the `拉黑` check, as in the source. -/
def commandDispatch (env : Env) (msg : String) : List BotAction × List String :=
  if pyStartsWith msg "删除好友 " then
    match pySplitMax1 msg with
    | [_, arg] => _delete_friend env (pyStrip arg)
    | _ => commandBan env msg
  else commandBan env msg

/-- `on_all_message`: the whole message handler.  `quoted_text` is the text
of the first component of the message chain carrying a `text` attribute
(empty when there is none), exactly the value the source's loop computes. -/
def on_all_message (env : Env) (st : PluginState)
    (sender_id message_str quoted_text : String) :
    PluginState × List BotAction × List String :=
  if !(env.admin_qq_list.contains sender_id) then (st, [], [])
  else
    let msg := pyStrip message_str
    if msg = "" then (st, [], [])
    else
      match friendQuoteDispatch env st msg quoted_text with
      | some out => out
      | none =>
        match groupQuoteDispatch env st msg quoted_text with
        | some out => out
        | none => (st, (commandDispatch env msg).1, (commandDispatch env msg).2)

/-! ## Concrete fixtures used by closed theorems and witnesses -/

/-- An environment whose single administrator is `"9"` and whose actuator
always succeeds. -/
def envOk : Env :=
  { admin_qq_list := ["9"], hasCallAction := true,
    callResult := fun _ => Except.ok () }

/-- An environment whose single administrator is `"9"` and whose actuator
always fails with description `"boom"`. -/
def envErr : Env :=
  { admin_qq_list := ["9"], hasCallAction := true,
    callResult := fun _ => Except.error "boom" }

/-- The empty plugin state. -/
def stEmpty : PluginState := ⟨[], []⟩

/-- State after `recordFriendRequest("111", "", "flagA")` on the empty
state. -/
def stOneFriend : PluginState := (_handle_friend_request stEmpty "111" "" "flagA").1

/-- A state holding one pending friend request and one pending group
invite. -/
def stBoth : PluginState :=
  ⟨[("111_flagA", ⟨"111_flagA", "111", "", "flagA"⟩)],
   [("5_6_fB", ⟨"5_6_fB", "5", "6", "fB"⟩)]⟩

/-- Quoted text of the friend-request notification for `"111_flagA"`. -/
def qFriend : String := "【好友申请】\n申请人QQ: 111\n申请ID: 111_flagA\n"

/-! ## Registry lemmas -/

theorem regFind_regErase {α : Type} (r : List (String × α)) (k : String) :
    regFind (regErase r k) k = none := by
  induction r with
  | nil => rfl
  | cons p rest ih =>
    by_cases h : p.1 = k
    · simpa [regErase, List.filter_cons, h] using ih
    · simpa [regErase, List.filter_cons, regFind, h] using ih

theorem regFind_regInsert_self {α : Type} (r : List (String × α)) (k : String) (v : α) :
    regFind (regInsert r k v) k = some v := by
  simp [regInsert, regFind]

theorem countKey_regErase {α : Type} (r : List (String × α)) (k : String) :
    countKey (regErase r k) k = 0 := by
  simp [countKey, regErase, List.filter_filter]

theorem countKey_regInsert_self {α : Type} (r : List (String × α)) (k : String) (v : α) :
    countKey (regInsert r k v) k = 1 := by
  have h := countKey_regErase r k
  simp only [countKey] at h
  simp [countKey, regInsert, List.filter_cons, h]

/-! ## String-splitting lemmas for the correlation-id computation -/

theorem string_data_append (s t : String) : (s ++ t).data = s.data ++ t.data := by
  cases s; cases t; rfl

theorem string_eq_of_data {s t : String} (h : s.data = t.data) : s = t := by
  cases s; cases t; exact congrArg String.mk h

/-- Splitting at a separator absent from both left parts is injective. -/
theorem append_sep_inj {α : Type} (sep : α) :
    ∀ (a c b d : List α), sep ∉ a → sep ∉ c →
      a ++ sep :: b = c ++ sep :: d → a = c ∧ b = d := by
  intro a
  induction a with
  | nil =>
    intro c b d _ hc h
    cases c with
    | nil => simpa using h
    | cons y ys =>
      simp only [List.nil_append, List.cons_append, List.cons.injEq] at h
      exact absurd (h.1 ▸ List.mem_cons_self y ys) hc
  | cons x xs ih =>
    intro c b d ha hc h
    cases c with
    | nil =>
      simp only [List.cons_append, List.nil_append, List.cons.injEq] at h
      exact absurd (h.1 ▸ List.mem_cons_self x xs) ha
    | cons y ys =>
      simp only [List.cons_append, List.cons.injEq] at h
      obtain ⟨hxy, h2⟩ := h
      have hrec := ih ys b d (fun hm => ha (List.mem_cons_of_mem _ hm))
        (fun hm => hc (List.mem_cons_of_mem _ hm)) h2
      exact ⟨by rw [hxy, hrec.1], hrec.2⟩

theorem friendRequestId_data (u f : String) :
    (friendRequestId u f).data = u.data ++ '_' :: f.data := by
  simp [friendRequestId, string_data_append]

theorem groupRequestId_data (g u f : String) :
    (groupRequestId g u f).data = g.data ++ '_' :: (u.data ++ '_' :: f.data) := by
  simp [groupRequestId, string_data_append]

/-! ## Claim theorems -/

/-- C1 (counterexample): the claim's uniqueness property fails as stated.
`recordFriendRequest("a_b", _, "c")` and `recordFriendRequest("a", _, "b_c")`
carry different approvalTokens yet compute the same correlationId `"a_b_c"`;
and two events with the same approvalToken `"fA"` but different requesters
compute distinct correlationIds, so equal tokens do not in general collide
either. -/
theorem C1_counterexample :
    friendRequestId "a_b" "c" = friendRequestId "a" "b_c" ∧
    ("c" : String) ≠ "b_c" ∧
    friendRequestId "1" "fA" ≠ friendRequestId "2" "fA" := by
  decide

/-- C1 (amended): the correlationId is a deterministic function of the full
key — `(requesterId, approvalToken)` for friend requests,
`(groupId, inviterId, approvalToken)` for group invites — and when the
identifiers contain no `'_'` separator the computation is injective, so two
events sharing the full key collide (idempotent overwrite) and, for
separator-free identifiers, different approvalTokens never collide. -/
theorem C1_correlation_id_amended :
    (∀ u1 f1 u2 f2 : String, '_' ∉ u1.data → '_' ∉ u2.data →
      (friendRequestId u1 f1 = friendRequestId u2 f2 ↔ u1 = u2 ∧ f1 = f2)) ∧
    (∀ g1 u1 f1 g2 u2 f2 : String,
      '_' ∉ g1.data → '_' ∉ g2.data → '_' ∉ u1.data → '_' ∉ u2.data →
      (groupRequestId g1 u1 f1 = groupRequestId g2 u2 f2 ↔
        g1 = g2 ∧ u1 = u2 ∧ f1 = f2)) := by
  constructor
  · intro u1 f1 u2 f2 h1 h2
    constructor
    · intro h
      have hd := congrArg String.data h
      rw [friendRequestId_data, friendRequestId_data] at hd
      have hs := append_sep_inj '_' u1.data u2.data f1.data f2.data h1 h2 hd
      exact ⟨string_eq_of_data hs.1, string_eq_of_data hs.2⟩
    · rintro ⟨rfl, rfl⟩
      rfl
  · intro g1 u1 f1 g2 u2 f2 hg1 hg2 hu1 hu2
    constructor
    · intro h
      have hd := congrArg String.data h
      rw [groupRequestId_data, groupRequestId_data] at hd
      have hs := append_sep_inj '_' g1.data g2.data _ _ hg1 hg2 hd
      have hs2 := append_sep_inj '_' u1.data u2.data f1.data f2.data hu1 hu2 hs.2
      exact ⟨string_eq_of_data hs.1, string_eq_of_data hs2.1, string_eq_of_data hs2.2⟩
    · rintro ⟨rfl, rfl, rfl⟩
      rfl

/-- C1 (witness): concrete instance of the amended theorem — equal keys give
an equal id, and with underscore-free identifiers a different approvalToken
gives a different id. -/
theorem C1_witness :
    friendRequestId "111" "flagA" = friendRequestId "111" "flagA" ∧
    friendRequestId "111" "flagA" ≠ friendRequestId "111" "flagB" := by
  constructor
  · exact (C1_correlation_id_amended.1 "111" "flagA" "111" "flagA"
      (by decide) (by decide)).mpr ⟨rfl, rfl⟩
  · intro h
    have hk := (C1_correlation_id_amended.1 "111" "flagA" "111" "flagB"
      (by decide) (by decide)).mp h
    exact absurd hk.2 (by decide)

/-- C2 (counterexample): with an empty registry, an administrator reply
`"同意"` quoting a friend-request notification with the well-formed
correlation id `"111_flagA"` produces NO message at all (and no actuator
call, no mutation) — the claimed user-visible NotFound message is never
emitted, because `on_all_message` checks membership before dispatching and
silently falls through. -/
theorem C2_counterexample :
    on_all_message envOk stEmpty "9" "同意" qFriend = (stEmpty, [], []) := by
  decide

/-- C2 (amended): when the extracted correlation id is absent from the
matching registry the handler silently falls through: provided the quoted
text does not also carry the other marker and the body is not a direct
command, no message is emitted, no actuator call is issued, and neither
registry is mutated. -/
theorem C2_stale_id_silent_fallthrough :
    (∀ (env : Env) (st : PluginState) (sender body quoted rid : String),
      env.admin_qq_list.contains sender = true →
      pyStrip body ≠ "" →
      strContains quoted "【好友申请】" = true →
      extractRequestId "申请ID:" quoted = some rid →
      regFind st.pending_friend_requests rid = none →
      strContains quoted "【群邀请】" = false →
      pyStartsWith (pyStrip body) "删除好友 " = false →
      pyStartsWith (pyStrip body) "拉黑 " = false →
      on_all_message env st sender body quoted = (st, [], [])) ∧
    (∀ (env : Env) (st : PluginState) (sender body quoted rid : String),
      env.admin_qq_list.contains sender = true →
      pyStrip body ≠ "" →
      strContains quoted "【群邀请】" = true →
      extractRequestId "邀请ID:" quoted = some rid →
      regFind st.pending_group_invites rid = none →
      strContains quoted "【好友申请】" = false →
      pyStartsWith (pyStrip body) "删除好友 " = false →
      pyStartsWith (pyStrip body) "拉黑 " = false →
      on_all_message env st sender body quoted = (st, [], [])) := by
  constructor
  · intro env st sender body quoted rid hadm hne hfm hx habs hgm hdel hban
    have hfd : friendQuoteDispatch env st (pyStrip body) quoted = none := by
      simp [friendQuoteDispatch, hfm, hx, habs]
    have hgd : groupQuoteDispatch env st (pyStrip body) quoted = none := by
      simp [groupQuoteDispatch, hgm]
    have hcd : commandDispatch env (pyStrip body) = ([], []) := by
      simp [commandDispatch, commandBan, hdel, hban]
    simp [on_all_message, hadm, hne, hfd, hgd, hcd]
  · intro env st sender body quoted rid hadm hne hgm hx habs hfm hdel hban
    have hfd : friendQuoteDispatch env st (pyStrip body) quoted = none := by
      simp [friendQuoteDispatch, hfm]
    have hgd : groupQuoteDispatch env st (pyStrip body) quoted = none := by
      simp [groupQuoteDispatch, hgm, hx, habs]
    have hcd : commandDispatch env (pyStrip body) = ([], []) := by
      simp [commandDispatch, commandBan, hdel, hban]
    simp [on_all_message, hadm, hne, hfd, hgd, hcd]

/-- C2 (witness): concrete instance of the amended theorem, with an empty
registry and the reply `" 同意 "` quoting the `"111_flagA"` notification. -/
theorem C2_witness :
    on_all_message envOk stEmpty "9" " 同意 " qFriend = (stEmpty, [], []) :=
  C2_stale_id_silent_fallthrough.1 envOk stEmpty "9" " 同意 " qFriend "111_flagA"
    (by decide) (by decide) (by decide) (by decide) (by decide) (by decide)
    (by decide) (by decide)

/-- C4: with `recordFriendRequest("111", "", "flagA")` recorded, an admin
reply `"同意"` quoting the notification invokes
`set_friend_add_request(flag="flagA", approve=True)` and removes
`"111_flagA"` from the friend-request registry; the reply `"拒绝"` invokes
the reject call instead and the record is likewise removed on success. -/
theorem C4_concrete_approve_reject :
    on_all_message envOk stOneFriend "9" "同意" qFriend =
      (stEmpty, [BotAction.set_friend_add_request "flagA" true],
       ["已同意好友申请：111"]) ∧
    on_all_message envOk stOneFriend "9" "拒绝" qFriend =
      (stEmpty, [BotAction.set_friend_add_request "flagA" false],
       ["已拒绝好友申请：111"]) ∧
    regFind (on_all_message envOk stOneFriend "9" "同意" qFriend).1.pending_friend_requests
      "111_flagA" = none := by
  decide

/-- C6: recording a friend request and immediately looking up the returned
correlationId yields the stored record unchanged — same requesterId,
comment, approvalToken and correlationId. -/
theorem C6_record_lookup_roundtrip (st : PluginState) (u c f : String) :
    regFind ((_handle_friend_request st u c f).1).pending_friend_requests
        (friendRequestId u f) = some ⟨friendRequestId u f, u, c, f⟩ := by
  simp [_handle_friend_request, regFind_regInsert_self]

/-- C7: recording two friend requests with the same
(requesterId, approvalToken) stores both under the same correlationId with
the second silently overwriting the first: afterwards exactly one binding
for that id remains and it is the latest record. -/
theorem C7_overwrite_last_write_wins (st : PluginState) (u c1 c2 f : String) :
    regFind ((_handle_friend_request (_handle_friend_request st u c1 f).1
        u c2 f).1).pending_friend_requests (friendRequestId u f) =
      some ⟨friendRequestId u f, u, c2, f⟩ ∧
    countKey ((_handle_friend_request (_handle_friend_request st u c1 f).1
        u c2 f).1).pending_friend_requests (friendRequestId u f) = 1 := by
  constructor
  · simp [_handle_friend_request, regFind_regInsert_self]
  · simp [_handle_friend_request, countKey_regInsert_self]

/-! ## Further helper lemmas -/

theorem leadsWith_refl (l : List Char) : leadsWith l l = true := by
  induction l with
  | nil => rfl
  | cons c cs ih => simp [leadsWith, ih]

theorem containsSub_suffix (s t : List Char) : containsSub (s ++ t) t = true := by
  induction s with
  | nil =>
    cases t with
    | nil => rfl
    | cons c cs => simp [containsSub, leadsWith_refl]
  | cons c cs ih => simp [containsSub, ih]

/-- A string always contains its own suffix: the error report built by
string concatenation contains the failure description. -/
theorem strContains_append_self (p e : String) : strContains (p ++ e) e = true := by
  have h := containsSub_suffix p.data e.data
  simpa [strContains, string_data_append] using h

/-- The approve/reject actuator calls, as opposed to the direct-command
ones. -/
def isApproveReject : BotAction → Bool
  | BotAction.set_friend_add_request _ _ => true
  | BotAction.set_group_add_request _ _ _ => true
  | _ => false

theorem friendQuoteDispatch_none_of_no_keyword (env : Env) (st : PluginState)
    (msg quoted : String)
    (h1 : strContains msg "同意" = false) (h2 : strContains msg "拒绝" = false) :
    friendQuoteDispatch env st msg quoted = none := by
  unfold friendQuoteDispatch
  split
  · split
    · rfl
    · split
      · simp [h1, h2]
      · rfl
  · rfl

theorem groupQuoteDispatch_none_of_no_keyword (env : Env) (st : PluginState)
    (msg quoted : String)
    (h1 : strContains msg "同意" = false) (h2 : strContains msg "拒绝" = false) :
    groupQuoteDispatch env st msg quoted = none := by
  unfold groupQuoteDispatch
  split
  · split
    · rfl
    · split
      · simp [h1, h2]
      · rfl
  · rfl

/-- C3: whenever a matched reply reaches the actuator: on success the
pending record is removed from its registry and a confirmation message is
emitted; on failure the registry is left unchanged (so an identical later
reply retries against the same record) and the emitted error message
contains the failure description.  Stated for both
`set_friend_add_request` and `set_group_add_request`. -/
theorem C3_actuator_result_handling
    (env : Env) (stF stG : PluginState) (ridF ridG : String) (apF apG : Bool)
    (fi : FriendInfo) (gi : GroupInfo)
    (hf : regFind stF.pending_friend_requests ridF = some fi)
    (hg : regFind stG.pending_group_invites ridG = some gi)
    (hca : env.hasCallAction = true) :
    ((env.callResult (BotAction.set_friend_add_request fi.flag apF) = Except.ok () →
        _reply_friend_request env stF ridF apF =
          ({ stF with
              pending_friend_requests := regErase stF.pending_friend_requests ridF },
           [BotAction.set_friend_add_request fi.flag apF],
           [if apF then "已同意好友申请：" ++ fi.user_id
            else "已拒绝好友申请：" ++ fi.user_id]) ∧
        regFind (regErase stF.pending_friend_requests ridF) ridF = none) ∧
     (∀ e, env.callResult (BotAction.set_friend_add_request fi.flag apF) =
          Except.error e →
        _reply_friend_request env stF ridF apF =
          (stF, [BotAction.set_friend_add_request fi.flag apF],
           ["处理好友申请失败: " ++ e]) ∧
        strContains ("处理好友申请失败: " ++ e) e = true)) ∧
    ((env.callResult (BotAction.set_group_add_request gi.flag "add" apG) =
          Except.ok () →
        _reply_group_invite env stG ridG apG =
          ({ stG with
              pending_group_invites := regErase stG.pending_group_invites ridG },
           [BotAction.set_group_add_request gi.flag "add" apG],
           [if apG then "已同意群邀请：" ++ gi.group_id ++ "，bot 将加入该群。"
            else "已拒绝群邀请：" ++ gi.group_id ++ "，bot 不会加入该群。"]) ∧
        regFind (regErase stG.pending_group_invites ridG) ridG = none) ∧
     (∀ e, env.callResult (BotAction.set_group_add_request gi.flag "add" apG) =
          Except.error e →
        _reply_group_invite env stG ridG apG =
          (stG, [BotAction.set_group_add_request gi.flag "add" apG],
           ["处理群邀请失败: " ++ e]) ∧
        strContains ("处理群邀请失败: " ++ e) e = true)) := by
  refine ⟨⟨?_, ?_⟩, ?_, ?_⟩
  · intro hok
    exact ⟨by simp [_reply_friend_request, hf, hca, hok], regFind_regErase _ _⟩
  · intro e herr
    exact ⟨by simp [_reply_friend_request, hf, hca, herr],
      strContains_append_self _ _⟩
  · intro hok
    exact ⟨by simp [_reply_group_invite, hg, hca, hok], regFind_regErase _ _⟩
  · intro e herr
    exact ⟨by simp [_reply_group_invite, hg, hca, herr],
      strContains_append_self _ _⟩

/-- C3 (witness): concrete instance — with the record for `"111_flagA"`
present and a succeeding actuator, the approve reply removes the record and
confirms. -/
theorem C3_witness :
    _reply_friend_request envOk stBoth "111_flagA" true =
      ({ stBoth with
          pending_friend_requests := regErase stBoth.pending_friend_requests "111_flagA" },
       [BotAction.set_friend_add_request "flagA" true],
       ["已同意好友申请：111"]) ∧
    regFind (regErase stBoth.pending_friend_requests "111_flagA") "111_flagA" = none :=
  (C3_actuator_result_handling envOk stBoth stBoth "111_flagA" "5_6_fB" true true
    ⟨"111_flagA", "111", "", "flagA"⟩ ⟨"5_6_fB", "5", "6", "fB"⟩
    (by decide) (by decide) rfl).1.1 rfl

theorem reply_friend_actions (env : Env) (st : PluginState) (rid : String)
    (ap : Bool) (info : FriendInfo)
    (hinfo : regFind st.pending_friend_requests rid = some info)
    (hca : env.hasCallAction = true) :
    (_reply_friend_request env st rid ap).2.1 =
      [BotAction.set_friend_add_request info.flag ap] := by
  unfold _reply_friend_request
  rw [hinfo, hca]
  cases henv : env.callResult (BotAction.set_friend_add_request info.flag ap) with
  | ok u => simp [henv]
  | error e => simp [henv]

theorem reply_group_actions (env : Env) (st : PluginState) (rid : String)
    (ap : Bool) (info : GroupInfo)
    (hinfo : regFind st.pending_group_invites rid = some info)
    (hca : env.hasCallAction = true) :
    (_reply_group_invite env st rid ap).2.1 =
      [BotAction.set_group_add_request info.flag "add" ap] := by
  unfold _reply_group_invite
  rw [hinfo, hca]
  cases henv : env.callResult (BotAction.set_group_add_request info.flag "add" ap) with
  | ok u => simp [henv]
  | error e => simp [henv]

theorem delete_friend_no_approve_reject (env : Env) (uid : String) :
    ∀ a ∈ (_delete_friend env uid).1, isApproveReject a = false := by
  intro a ha
  unfold _delete_friend at ha
  split at ha
  · simp at ha
  · split at ha <;> simp_all [isApproveReject]

theorem ban_user_no_approve_reject (env : Env) (uid : String) :
    ∀ a ∈ (_ban_user env uid).1, isApproveReject a = false := by
  intro a ha
  unfold _ban_user at ha
  split at ha
  · simp at ha
  · split at ha <;> simp_all [isApproveReject]

theorem commandBan_no_approve_reject (env : Env) (msg : String) :
    ∀ a ∈ (commandBan env msg).1, isApproveReject a = false := by
  intro a ha
  unfold commandBan at ha
  split at ha
  · split at ha
    · exact ban_user_no_approve_reject env _ a ha
    · simp at ha
  · simp at ha

theorem commandDispatch_no_approve_reject (env : Env) (msg : String) :
    ∀ a ∈ (commandDispatch env msg).1, isApproveReject a = false := by
  intro a ha
  unfold commandDispatch at ha
  split at ha
  · split at ha
    · exact delete_friend_no_approve_reject env _ a ha
    · exact commandBan_no_approve_reject env msg a ha
  · exact commandBan_no_approve_reject env msg a ha

/-- C5: decision-keyword detection on a matched reply is a plain substring
test on the (stripped) inbound body with `"同意"` checked first: a matched
friend-request (resp. group-invite) reply whose body contains both keywords
dispatches the approve call, and any message containing neither keyword
dispatches no approve/reject actuator action at all. -/
theorem C5_keyword_precedence :
    (∀ (env : Env) (st : PluginState) (sender body quoted rid : String)
        (info : FriendInfo),
      env.admin_qq_list.contains sender = true →
      strContains quoted "【好友申请】" = true →
      extractRequestId "申请ID:" quoted = some rid →
      rid ≠ "" →
      regFind st.pending_friend_requests rid = some info →
      strContains (pyStrip body) "同意" = true →
      strContains (pyStrip body) "拒绝" = true →
      on_all_message env st sender body quoted =
        _reply_friend_request env st rid true ∧
      (env.hasCallAction = true →
        (on_all_message env st sender body quoted).2.1 =
          [BotAction.set_friend_add_request info.flag true])) ∧
    (∀ (env : Env) (st : PluginState) (sender body quoted rid : String)
        (info : GroupInfo),
      env.admin_qq_list.contains sender = true →
      strContains quoted "【好友申请】" = false →
      strContains quoted "【群邀请】" = true →
      extractRequestId "邀请ID:" quoted = some rid →
      rid ≠ "" →
      regFind st.pending_group_invites rid = some info →
      strContains (pyStrip body) "同意" = true →
      strContains (pyStrip body) "拒绝" = true →
      on_all_message env st sender body quoted =
        _reply_group_invite env st rid true ∧
      (env.hasCallAction = true →
        (on_all_message env st sender body quoted).2.1 =
          [BotAction.set_group_add_request info.flag "add" true])) ∧
    (∀ (env : Env) (st : PluginState) (sender body quoted : String),
      strContains (pyStrip body) "同意" = false →
      strContains (pyStrip body) "拒绝" = false →
      ∀ a ∈ (on_all_message env st sender body quoted).2.1,
        isApproveReject a = false) := by
  refine ⟨?_, ?_, ?_⟩
  · intro env st sender body quoted rid info hadm hfm hx hrid hinfo hky1 hky2
    have hne : pyStrip body ≠ "" := by
      intro h0
      rw [h0] at hky1
      exact absurd hky1 (by decide)
    have hfd : friendQuoteDispatch env st (pyStrip body) quoted =
        some (_reply_friend_request env st rid true) := by
      simp [friendQuoteDispatch, hfm, hx, hrid, hinfo, hky1]
    have hadm2 : sender ∈ env.admin_qq_list := by simpa using hadm
    have hmain : on_all_message env st sender body quoted =
        _reply_friend_request env st rid true := by
      simp [on_all_message, hadm2, hne, hfd]
    refine ⟨hmain, fun hca => ?_⟩
    rw [hmain]
    exact reply_friend_actions env st rid true info hinfo hca
  · intro env st sender body quoted rid info hadm hfm hgm hx hrid hinfo hky1 hky2
    have hne : pyStrip body ≠ "" := by
      intro h0
      rw [h0] at hky1
      exact absurd hky1 (by decide)
    have hfd : friendQuoteDispatch env st (pyStrip body) quoted = none := by
      simp [friendQuoteDispatch, hfm]
    have hgd : groupQuoteDispatch env st (pyStrip body) quoted =
        some (_reply_group_invite env st rid true) := by
      simp [groupQuoteDispatch, hgm, hx, hrid, hinfo, hky1]
    have hadm2 : sender ∈ env.admin_qq_list := by simpa using hadm
    have hmain : on_all_message env st sender body quoted =
        _reply_group_invite env st rid true := by
      simp [on_all_message, hadm2, hne, hfd, hgd]
    refine ⟨hmain, fun hca => ?_⟩
    rw [hmain]
    exact reply_group_actions env st rid true info hinfo hca
  · intro env st sender body quoted h1 h2 a ha
    cases hadm : env.admin_qq_list.contains sender with
    | false =>
      have hadm2 : sender ∉ env.admin_qq_list := by simpa using hadm
      simp [on_all_message, hadm2] at ha
    | true =>
      have hadm2 : sender ∈ env.admin_qq_list := by simpa using hadm
      by_cases hmsg : pyStrip body = ""
      · simp [on_all_message, hadm2, hmsg] at ha
      · have hfd := friendQuoteDispatch_none_of_no_keyword env st (pyStrip body)
          quoted h1 h2
        have hgd := groupQuoteDispatch_none_of_no_keyword env st (pyStrip body)
          quoted h1 h2
        simp [on_all_message, hadm2, hmsg, hfd, hgd] at ha
        exact commandDispatch_no_approve_reject env (pyStrip body) a ha

/-- C5 (witness): with `"111_flagA"` pending, the admin body `"同意拒绝"`
(containing both keywords) dispatches the approve call. -/
theorem C5_witness :
    on_all_message envOk stBoth "9" "同意拒绝" qFriend =
      _reply_friend_request envOk stBoth "111_flagA" true ∧
    (on_all_message envOk stBoth "9" "同意拒绝" qFriend).2.1 =
      [BotAction.set_friend_add_request "flagA" true] := by
  have h := C5_keyword_precedence.1 envOk stBoth "9" "同意拒绝" qFriend "111_flagA"
    ⟨"111_flagA", "111", "", "flagA"⟩ (by decide) (by decide) (by decide)
    (by decide) (by decide) (by decide) (by decide)
  exact ⟨h.1, h.2 rfl⟩

/-- C8: a message from a sender outside the configured administrator set is
ignored before any parsing — no actuator call, no reply, registries
untouched; and the direct command `"删除好友 222"` from an administrator
(on a platform with `call_action`) leaves the registries unchanged and
issues exactly the single actuator call `delete_friend("222")`, whatever
text is quoted. -/
theorem C8_admin_gating :
    (∀ (env : Env) (st : PluginState) (sender body quoted : String),
      env.admin_qq_list.contains sender = false →
      on_all_message env st sender body quoted = (st, [], [])) ∧
    (∀ (env : Env) (st : PluginState) (sender quoted : String),
      env.admin_qq_list.contains sender = true →
      env.hasCallAction = true →
      (on_all_message env st sender "删除好友 222" quoted).1 = st ∧
      (on_all_message env st sender "删除好友 222" quoted).2.1 =
        [BotAction.delete_friend "222"]) := by
  constructor
  · intro env st sender body quoted hadm
    have hadm2 : sender ∉ env.admin_qq_list := by simpa using hadm
    simp [on_all_message, hadm2]
  · intro env st sender quoted hadm hca
    have hadm2 : sender ∈ env.admin_qq_list := by simpa using hadm
    have hstrip : pyStrip "删除好友 222" = "删除好友 222" := by decide
    have hne : pyStrip "删除好友 222" ≠ "" := by decide
    have hfd := friendQuoteDispatch_none_of_no_keyword env st
      (pyStrip "删除好友 222") quoted (by decide) (by decide)
    have hgd := groupQuoteDispatch_none_of_no_keyword env st
      (pyStrip "删除好友 222") quoted (by decide) (by decide)
    have hdel : (_delete_friend env (pyStrip "222")).1 =
        [BotAction.delete_friend "222"] := by
      have h222 : pyStrip "222" = "222" := by decide
      rw [h222]
      unfold _delete_friend
      rw [hca]
      cases henv : env.callResult (BotAction.delete_friend "222") with
      | ok u => simp [henv]
      | error e => simp [henv]
    have hcd : (commandDispatch env (pyStrip "删除好友 222")).1 =
        [BotAction.delete_friend "222"] := by
      rw [hstrip]
      unfold commandDispatch
      rw [show pySplitMax1 "删除好友 222" = ["删除好友", "222"] from by decide]
      simp only [show pyStartsWith "删除好友 222" "删除好友 " = true from by decide,
        if_true]
      exact hdel
    constructor
    · simp [on_all_message, hadm2, hne, hfd, hgd]
    · simp [on_all_message, hadm2, hne, hfd, hgd, hcd]

/-- C8 (witness): sender `"7"` (not an admin) gets no reaction at all to
`"删除好友 222"`; admin `"9"` gets exactly one `delete_friend("222")`
call. -/
theorem C8_witness :
    on_all_message envOk stBoth "7" "删除好友 222" "" = (stBoth, [], []) ∧
    (on_all_message envOk stBoth "9" "删除好友 222" "").1 = stBoth ∧
    (on_all_message envOk stBoth "9" "删除好友 222" "").2.1 =
      [BotAction.delete_friend "222"] :=
  ⟨C8_admin_gating.1 envOk stBoth "7" "删除好友 222" "" (by decide),
   C8_admin_gating.2 envOk stBoth "9" "" (by decide) rfl⟩

theorem reply_friend_len (env : Env) (st : PluginState) (rid : String) (ap : Bool) :
    ((_reply_friend_request env st rid ap).2.1).length ≤ 1 := by
  unfold _reply_friend_request
  split
  · simp
  · split
    · simp
    · split <;> simp

theorem reply_group_len (env : Env) (st : PluginState) (rid : String) (ap : Bool) :
    ((_reply_group_invite env st rid ap).2.1).length ≤ 1 := by
  unfold _reply_group_invite
  split
  · simp
  · split
    · simp
    · split <;> simp

theorem delete_friend_len (env : Env) (uid : String) :
    ((_delete_friend env uid).1).length ≤ 1 := by
  unfold _delete_friend
  split
  · simp
  · split <;> simp

theorem ban_user_len (env : Env) (uid : String) :
    ((_ban_user env uid).1).length ≤ 1 := by
  unfold _ban_user
  split
  · simp
  · split <;> simp

theorem commandBan_len (env : Env) (msg : String) :
    ((commandBan env msg).1).length ≤ 1 := by
  unfold commandBan
  split
  · split
    · exact ban_user_len env _
    · simp
  · simp

theorem commandDispatch_len (env : Env) (msg : String) :
    ((commandDispatch env msg).1).length ≤ 1 := by
  unfold commandDispatch
  split
  · split
    · exact delete_friend_len env _
    · exact commandBan_len env msg
  · exact commandBan_len env msg

theorem friendQuoteDispatch_len (env : Env) (st : PluginState) (msg quoted : String)
    (out : PluginState × List BotAction × List String)
    (h : friendQuoteDispatch env st msg quoted = some out) :
    (out.2.1).length ≤ 1 := by
  unfold friendQuoteDispatch at h
  split at h
  · split at h
    · exact absurd h (by simp)
    · split at h
      · split at h
        · cases h
          exact reply_friend_len env st _ true
        · split at h
          · cases h
            exact reply_friend_len env st _ false
          · exact absurd h (by simp)
      · exact absurd h (by simp)
  · exact absurd h (by simp)

theorem groupQuoteDispatch_len (env : Env) (st : PluginState) (msg quoted : String)
    (out : PluginState × List BotAction × List String)
    (h : groupQuoteDispatch env st msg quoted = some out) :
    (out.2.1).length ≤ 1 := by
  unfold groupQuoteDispatch at h
  split at h
  · split at h
    · exact absurd h (by simp)
    · split at h
      · split at h
        · cases h
          exact reply_group_len env st _ true
        · split at h
          · cases h
            exact reply_group_len env st _ false
          · exact absurd h (by simp)
      · exact absurd h (by simp)
  · exact absurd h (by simp)

/-- C9: for every single inbound chat message, the handler issues at most
one actuator call — every dispatching branch returns immediately after its
single `call_action` invocation. -/
theorem C9_at_most_one_action (env : Env) (st : PluginState)
    (sender body quoted : String) :
    ((on_all_message env st sender body quoted).2.1).length ≤ 1 := by
  unfold on_all_message
  split
  · simp
  · dsimp only
    split
    · simp
    · split
      · rename_i out heq
        exact friendQuoteDispatch_len env st _ quoted out heq
      · split
        · rename_i out heq
          exact groupQuoteDispatch_len env st _ quoted out heq
        · simpa using commandDispatch_len env _

/-- C10: correlation-id extraction takes the FIRST line of the quoted text
starting with the label prefix and returns the text after that line's first
colon, trimmed of whitespace; consequently, because the requester-controlled
comment is interpolated into the notification above the genuine id line, a
quoted friend-request notification whose comment smuggles in its own
`"申请ID:"` line yields the comment's id rather than the genuine one. -/
theorem C10_extraction_first_match :
    (∀ (label quoted : String) (pre : List String) (l : String)
        (rest : List String),
      splitLines quoted = pre ++ l :: rest →
      (∀ l2 ∈ pre, pyStartsWith l2 label = false) →
      pyStartsWith l label = true →
      extractRequestId label quoted = some (pyStrip (afterFirstColon l))) ∧
    extractRequestId "申请ID:"
        (friendNotifText "111" "hi\n申请ID: 999_EVIL" (friendRequestId "111" "flagA")) =
      some "999_EVIL" ∧
    "999_EVIL" ≠ friendRequestId "111" "flagA" := by
  refine ⟨?_, by decide, by decide⟩
  intro label quoted pre l rest hsplit hpre hl
  unfold extractRequestId
  rw [hsplit]
  clear hsplit
  revert hpre
  induction pre with
  | nil =>
    intro _
    simp [extractFromLines, hl]
  | cons p ps ih =>
    intro hpre
    have hp : pyStartsWith p label = false := hpre p (List.mem_cons_self _ _)
    simp only [List.cons_append, extractFromLines, hp, Bool.false_eq_true,
      if_false]
    exact ih (fun x hx => hpre x (List.mem_cons_of_mem _ hx))

/-- C10 (witness): concrete instance of the first-match rule — the second
line of `"x\n申请ID: 7"` is the first one carrying the label, and the text
after its colon, trimmed, is returned. -/
theorem C10_witness :
    extractRequestId "申请ID:" "x\n申请ID: 7" = some "7" := by
  have h := C10_extraction_first_match.1 "申请ID:" "x\n申请ID: 7" ["x"]
    "申请ID: 7" [] (by decide) (by decide) (by decide)
  rw [h]
  decide
